/-
Verification of the CI-Sage workflow-failure processing service.

Shallow embedding of the Python source under `app/`:
  * `app/services/claude_analyzer.py`  — LLM analysis and error-signature hashing
  * `app/services/learning_system.py`  — error-signature store
  * `app/core/github.py`               — GitHub API client (token cache, requests)
  * `app/services/workflow_processor.py` — the failure-processing pipeline
  * `app/api/webhooks.py`              — webhook endpoint and event gating

External primitives (SHA-256 / HMAC-SHA256 from `hashlib`/`hmac`, the HTTP
stack, the LLM provider, the SQL engine) are not code of this repository;
they are modelled as function parameters or oracle inputs, while every
branch and data transformation of the repository's own code is embedded
directly.  Python floats carrying confidence scores are modelled as exact
rationals; the clamping and threshold comparisons involved are exact.
-/
import Mathlib

namespace CISage

/-! ## Data model (`app/models/schemas.py`) -/

/-- `AnalysisResult` pydantic model (`app/models/schemas.py` lines 21–29). -/
structure AnalysisResult where
  failure_reason : String
  confidence_score : ℚ
  remediation_steps : List String
  error_type : String
  suggested_labels : List String
  can_auto_fix : Bool
  auto_fix_patch : Option String
  deriving DecidableEq, Inhabited

/-- The JSON object extracted from the LLM response text in
`ClaudeAnalyzer.analyze_workflow_failure` (`app/services/claude_analyzer.py`
lines 109–131).  Each field is `none` when the key is absent from the parsed
dict, mirroring Python's `dict.get` defaults. -/
structure AnalysisData where
  failure_reason : Option String
  confidence_score : Option ℚ
  remediation_steps : Option (List String)
  error_type : Option String
  suggested_labels : Option (List String)
  can_auto_fix : Option Bool
  auto_fix_patch : Option String
  deriving DecidableEq, Inhabited

/-! ## `app/services/claude_analyzer.py` -/

/-- The literal fallback dict built when the LLM response cannot be parsed as
JSON (`claude_analyzer.py` lines 123–131). -/
def fallbackAnalysisData : AnalysisData :=
  { failure_reason := some "Analysis failed - unable to parse response"
    confidence_score := some (1/10)
    remediation_steps := some ["Review logs manually", "Check workflow configuration"]
    error_type := some "unknown"
    suggested_labels := some ["ci", "needs-triage"]
    can_auto_fix := some false
    auto_fix_patch := none }

/-- Outcome of the call to the LLM API inside `analyze_workflow_failure`:
`.error msg` models `self.client.messages.create` (or the response handling
before JSON extraction) raising an exception; `.ok none` models the JSON
extraction failing (`json_start == -1` or `json.loads` raising); `.ok (some d)`
models a successfully parsed JSON object `d`. -/
abbrev LLMOutcome := Except String (Option AnalysisData)

/-- `ClaudeAnalyzer.analyze_workflow_failure` (`claude_analyzer.py` lines
83–158), with the external LLM call abstracted as `outcome`.  The
validation/cleaning step (lines 134–142) clamps the confidence score with
`min(max(·, 0.0), 1.0)` and applies the documented defaults; every exception
escaping the `try` block yields the fallback result with confidence `0.1`
(lines 147–158). -/
def analyzeWorkflowFailure (outcome : LLMOutcome) : AnalysisResult :=
  match outcome with
  | .error e =>
    { failure_reason := "Analysis failed: " ++ e
      confidence_score := 1/10
      remediation_steps := ["Review logs manually", "Check workflow configuration"]
      error_type := "unknown"
      suggested_labels := ["ci", "needs-triage"]
      can_auto_fix := false
      auto_fix_patch := none }
  | .ok parsed =>
    let analysis_data :=
      match parsed with
      | none => fallbackAnalysisData
      | some d => d
    { failure_reason := analysis_data.failure_reason.getD "Unknown error"
      confidence_score := min (max (analysis_data.confidence_score.getD (1/2)) 0) 1
      remediation_steps := analysis_data.remediation_steps.getD ["Review logs manually"]
      error_type := analysis_data.error_type.getD "unknown"
      suggested_labels := analysis_data.suggested_labels.getD ["ci"]
      can_auto_fix := analysis_data.can_auto_fix.getD false
      auto_fix_patch := analysis_data.auto_fix_patch }

/-- `WorkflowProcessor._analyze_with_claude` (`workflow_processor.py` lines
139–171).  `historyError = some e` models an exception raised before or
around the analyzer call (e.g. by `get_successful_remediations`); its
`except` branch returns the fallback `AnalysisResult` with confidence `0.1`
(lines 159–171).  Otherwise the analyzer's own result is returned. -/
def analyzeWithClaude (historyError : Option String) (llm : LLMOutcome) : AnalysisResult :=
  match historyError with
  | some e =>
    { failure_reason := "Analysis failed: " ++ e
      confidence_score := 1/10
      remediation_steps := ["Review logs manually"]
      error_type := "unknown"
      suggested_labels := ["ci", "needs-triage"]
      can_auto_fix := false
      auto_fix_patch := none }
  | none => analyzeWorkflowFailure llm

/-- `ClaudeAnalyzer._generate_error_signature_hash` (`claude_analyzer.py`
lines 18–21): `content = f"{logs[:1000]}{error_pattern}"` hashed with
SHA-256.  The `hashlib.sha256(...).hexdigest()` primitive is external
library code, modelled as the parameter `sha256hex`. -/
def generateErrorSignatureHash (sha256hex : String → String)
    (logs error_pattern : String) : String :=
  let content := logs.take 1000 ++ error_pattern
  sha256hex content

/-- `ClaudeAnalyzer.generate_error_signature` (`claude_analyzer.py` lines
201–203): delegates to `_generate_error_signature_hash`. -/
def generateErrorSignature (sha256hex : String → String)
    (logs error_pattern : String) : String :=
  generateErrorSignatureHash sha256hex logs error_pattern

/-! ## `app/services/learning_system.py` -/

/-- A row of the `error_signatures` table (`app/models/database.py` lines
5–18). -/
structure ErrorSignatureRow where
  id : Int
  signature_hash : String
  error_pattern : String
  error_type : String
  confidence_score : ℚ
  remediation_steps : List String
  success_rate : ℚ
  occurrence_count : Int
  deriving DecidableEq, Inhabited

/-- Replace the first row whose `signature_hash` matches, modelling the
in-place mutation of the row returned by `.filter(...).first()` followed by
`commit`.  (`signature_hash` is a unique-indexed column, so at most one row
matches in any reachable database state.) -/
def updateFirstRow (db : List ErrorSignatureRow) (hash : String)
    (updated : ErrorSignatureRow) : List ErrorSignatureRow :=
  match db with
  | [] => []
  | r :: rest =>
    if r.signature_hash == hash then updated :: rest
    else r :: updateFirstRow rest hash updated

/-- `LearningSystem.store_error_signature` (`learning_system.py` lines
17–61).  The database session is modelled as a list of rows plus the next
auto-increment id; the call site in the pipeline passes `success_rate = 0`
(the Python default).  Returns the stored/updated row and the new database
state. -/
def storeErrorSignature (db : List ErrorSignatureRow) (nextId : Int)
    (signature_hash error_pattern error_type : String)
    (confidence_score : ℚ) (remediation_steps : List String)
    (success_rate : ℚ) : ErrorSignatureRow × List ErrorSignatureRow :=
  match db.find? (fun r => r.signature_hash == signature_hash) with
  | some existing =>
    let updated : ErrorSignatureRow :=
      { existing with
        occurrence_count := existing.occurrence_count + 1
        confidence_score := max existing.confidence_score confidence_score
        success_rate := success_rate
        remediation_steps := remediation_steps }
    (updated, updateFirstRow db signature_hash updated)
  | none =>
    let new_signature : ErrorSignatureRow :=
      { id := nextId
        signature_hash := signature_hash
        error_pattern := error_pattern
        error_type := error_type
        confidence_score := confidence_score
        remediation_steps := remediation_steps
        success_rate := success_rate
        occurrence_count := 1 }
    (new_signature, db ++ [new_signature])

/-! ## `app/core/github.py` -/

/-- One HTTP request issued by the client: the `POST
/app/installations/{id}/access_tokens` call inside
`GitHubAppAuth.get_installation_token`, or the single endpoint request of
`GitHubAPI.make_request`. -/
inductive HttpReq where
  | tokenPost (installation_id : String)
  | endpointCall (method : String) (url : String)
  deriving DecidableEq

/-- An HTTP response as seen by the client (status code and body text);
responses are supplied by the environment. -/
structure HttpResponse where
  status_code : Nat
  text : String
  deriving DecidableEq, Inhabited

/-- One entry of `GitHubAppAuth._installation_tokens`: installation id,
token, and `expires_at` timestamp (`github.py` lines 85–88). -/
structure TokenCacheEntry where
  installation_id : String
  token : String
  expires_at : ℚ
  deriving DecidableEq, Inhabited

/-- Whether the cached token for `installation_id` is present and still
valid at time `now`: the check `token_data['expires_at'] > time.time() + 60`
(`github.py` lines 61–64). -/
def tokenCacheHit (cache : List TokenCacheEntry) (installation_id : String)
    (now : ℚ) : Bool :=
  match cache.find? (fun e => e.installation_id == installation_id) with
  | some entry => now + 60 < entry.expires_at
  | none => false

/-- `GitHubAppAuth.get_installation_token` (`github.py` lines 58–90).  Time
(`time.time()`) is the parameter `now`; the response of the token POST is
the oracle `tokenResp` (its `token` field is the parsed `token_data['token']`).
On a cache hit the cached token is returned with no HTTP request; otherwise
one `tokenPost` request is issued, a non-201 status raises, and a 201 caches
the token with `expires_at = now + 3600`.  Returns the token, the new cache,
and the list of HTTP requests issued. -/
def getInstallationToken (cache : List TokenCacheEntry)
    (installation_id : String) (now : ℚ) (tokenResp : Nat × String) :
    Except String (String × List TokenCacheEntry × List HttpReq) :=
  if tokenCacheHit cache installation_id now then
    match cache.find? (fun e => e.installation_id == installation_id) with
    | some entry => .ok (entry.token, cache, [])
    | none => .error "unreachable"
  else
    let (status, token) := tokenResp
    if status ≠ 201 then
      .error ("Failed to get installation token: " ++ toString status)
    else
      let entry : TokenCacheEntry :=
        { installation_id := installation_id, token := token
          expires_at := now + 3600 }
      let cache := entry ::
        cache.filter (fun e => !(e.installation_id == installation_id))
      .ok (token, cache, [HttpReq.tokenPost installation_id])

/-- `GitHubAPI.make_request` (`github.py` lines 103–134): obtains an
installation token, then issues exactly one request to
`https://api.github.com{endpoint}` and returns its response unchanged —
a status `>= 400` is only logged, never retried.  The endpoint response is
the oracle `endpointResp`. -/
def makeRequest (cache : List TokenCacheEntry) (method endpoint : String)
    (installation_id : String) (now : ℚ) (tokenResp : Nat × String)
    (endpointResp : HttpResponse) :
    Except String (HttpResponse × List TokenCacheEntry × List HttpReq) :=
  match getInstallationToken cache installation_id now tokenResp with
  | .error e => .error e
  | .ok (_token, cache, reqs) =>
    let url := "https://api.github.com" ++ endpoint
    .ok (endpointResp, cache, reqs ++ [HttpReq.endpointCall method url])

/-- `GitHubAPI.create_pull_request` (`github.py` lines 251–280): a single
`make_request POST /repos/{owner}/{repo}/pulls`; a 201 returns the parsed
response, anything else raises.  This is the only function in the
repository that creates a GitHub pull request, and its only caller is
`AutoFixService._create_fix_pr` — the workflow processor never reaches it. -/
def createPullRequest (cache : List TokenCacheEntry)
    (installation_id : String) (owner repo title head base body : String)
    (now : ℚ) (tokenResp : Nat × String) (endpointResp : HttpResponse) :
    Except String (HttpResponse × List TokenCacheEntry × List HttpReq) :=
  let _data := [("title", title), ("head", head), ("base", base), ("body", body)]
  match makeRequest cache "POST" ("/repos/" ++ owner ++ "/" ++ repo ++ "/pulls")
      installation_id now tokenResp endpointResp with
  | .error e => .error e
  | .ok (response, cache, reqs) =>
    if response.status_code = 201 then .ok (response, cache, reqs)
    else .error ("Failed to create pull request: " ++ toString response.status_code)

/-! ## `app/services/workflow_processor.py` -/

/-- One step of the failure-processing pipeline, in the vocabulary of
`WorkflowProcessor.process_workflow_failure`.  `storeAnalysis` records the
`issue_id` value passed to `_store_analysis`.  `createPullRequest` marks an
invocation of `GitHubAPI.create_pull_request`; the processor's
`_propose_patch` (lines 345–359) only logs — its body contains no GitHub
API call — so the pipeline never emits this step. -/
inductive Step where
  | fetchData
  | analyze
  | storeSignature
  | createCheckRun
  | createIssue
  | storeAnalysis (issue_id : Option Int)
  | proposePatch
  | createPullRequest
  deriving DecidableEq

/-- Environment of one `process_workflow_failure` run: the outcomes of the
external calls made by the helper steps.  `fetchResult` is the body of
`_fetch_workflow_data` before its `except` branch (`.error` models an
exception there, which yields `("", [])`); `historyError`/`llm` feed
`_analyze_with_claude`; `db`/`nextId` are the learning store;
`checkRunResp` is the result of `github_api.create_check_run` (`.error`
models the exception caught in `_create_check_run`, which returns `{}`);
`issueResp` is `github_api.create_issue` followed by `.get('number')`
(`.error` models the exception caught in `_create_or_update_issue`). -/
structure ProcEnv where
  fetchResult : Except String (String × List String)
  historyError : Option String
  llm : LLMOutcome
  db : List ErrorSignatureRow
  nextId : Int
  checkRunResp : Except String Int
  issueResp : Except String (Option Int)

/-- `WorkflowProcessor._fetch_workflow_data` (`workflow_processor.py` lines
112–137): returns the fetched `(logs, artifacts)`, or `("", [])` when any
exception was raised. -/
def fetchWorkflowData (env : ProcEnv) : String × List String :=
  match env.fetchResult with
  | .ok r => r
  | .error _ => ("", [])

/-- `WorkflowProcessor._create_or_update_issue` (`workflow_processor.py`
lines 255–309): returns `issue.get('number')` on success and `None` when an
exception was raised. -/
def createOrUpdateIssue (env : ProcEnv) : Option Int :=
  match env.issueResp with
  | .ok n => n
  | .error _ => none

/-- `WorkflowProcessor._create_check_run` (`workflow_processor.py` lines
197–253): returns the created check run on success and `{}` when an
exception was raised, so `check_run.get('id')` is `none` in that case. -/
def createCheckRunId (env : ProcEnv) : Option Int :=
  match env.checkRunResp with
  | .ok id => some id
  | .error _ => none

/-- Python truthiness of `analysis_result.auto_fix_patch` (an
`Optional[str]`): `None` and the empty string are falsy. -/
def optStrTruthy : Option String → Bool
  | none => false
  | some s => !(s == "")

/-- `WorkflowProcessor.process_workflow_failure` (`workflow_processor.py`
lines 25–110), producing the ordered trace of pipeline steps it executes.
The statements are mirrored in source order: fetch (early return when the
logs are empty), analyze, store the error signature, create a check run,
create an issue only when `confidence_score > 0.7`, store the analysis row
with the resulting `issue_id`, and invoke `_propose_patch` only when
`can_auto_fix` and `auto_fix_patch` are truthy.  The learning-store write
is the pure `storeErrorSignature`; a database error there would be caught
by `_store_error_signature` (returning a dummy row id) without changing
the control flow embedded here. -/
def processWorkflowFailure (sha256hex : String → String) (env : ProcEnv) :
    List Step := Id.run do
  let mut trace : List Step := []
  -- Step 1: Fetch logs and artifacts
  let (logs, _artifacts) := fetchWorkflowData env
  trace := trace ++ [Step.fetchData]
  if logs == "" then
    -- "Cannot proceed without logs - skipping analysis"
    return trace
  -- Step 2: Analyze with Claude
  let analysis_result := analyzeWithClaude env.historyError env.llm
  trace := trace ++ [Step.analyze]
  -- Step 3: Store error signature for learning
  let signature_hash := generateErrorSignature sha256hex logs analysis_result.failure_reason
  let (_error_signature, _db) := storeErrorSignature env.db env.nextId
    signature_hash analysis_result.failure_reason analysis_result.error_type
    analysis_result.confidence_score analysis_result.remediation_steps 0
  trace := trace ++ [Step.storeSignature]
  -- Step 4: Create GitHub Check Run
  let _check_run_id := createCheckRunId env
  trace := trace ++ [Step.createCheckRun]
  -- Step 5: Create or update issue (if confidence is high)
  let mut issue_id : Option Int := none
  if (7 : ℚ)/10 < analysis_result.confidence_score then
    issue_id := createOrUpdateIssue env
    trace := trace ++ [Step.createIssue]
  -- Step 6: Store analysis in database
  trace := trace ++ [Step.storeAnalysis issue_id]
  -- Step 7: Generate patch if auto-fixable
  if analysis_result.can_auto_fix && optStrTruthy analysis_result.auto_fix_patch then
    -- `_propose_patch` body: logging only, no GitHub call, no pull request
    trace := trace ++ [Step.proposePatch]
  return trace

/-! ## `app/api/webhooks.py` -/

/-- The `workflow_run` object of the webhook payload, with the fields read
by `handle_workflow_run_event`; `none` models an absent key. -/
structure WorkflowRunData where
  id : Option Int
  name : Option String
  head_sha : Option String
  conclusion : Option String
  deriving DecidableEq, Inhabited

/-- The `repository` object of the webhook payload. -/
structure RepoData where
  full_name : Option String
  deriving DecidableEq, Inhabited

/-- The `installation` object of the webhook payload. -/
structure InstallationData where
  id : Option Int
  deriving DecidableEq, Inhabited

/-- The parsed webhook payload (`event_data`), restricted to the keys read
by `handle_workflow_run_event`; `none` models an absent key, for which the
code substitutes `''` or `{}` via `dict.get`. -/
structure EventData where
  action : Option String
  workflow_run : Option WorkflowRunData
  repository : Option RepoData
  installation : Option InstallationData
  deriving DecidableEq, Inhabited

/-- `verify_webhook_signature` (`webhooks.py` lines 22–33): reject unless
the header starts with `'sha256='`, then compare it for equality (via the
constant-time `hmac.compare_digest`) with `'sha256=' + HMAC-SHA256 hex
digest of the payload under the configured secret`.  Python's
`str.startswith` is the character-sequence prefix test, embedded as
`List.isPrefixOf` on the characters; the `hmac`/`hashlib` digest primitive
is external library code, modelled as the parameter `hmacSha256Hex secret
payload`. -/
def verifyWebhookSignature (secret : String)
    (hmacSha256Hex : String → String → String)
    (payload signature : String) : Bool :=
  if !("sha256=".data.isPrefixOf signature.data) then
    false
  else
    let expected_signature := "sha256=" ++ hmacSha256Hex secret payload
    signature == expected_signature

/-- An observable action of the webhook endpoint: verifying the signature,
attempting `json.loads`, or awaiting `processor.process_workflow_failure`
with the extracted arguments. -/
inductive WAction where
  | verifySignature
  | parseJson
  | processorCall (workflow_run_id : Int) (repository_name : String)
      (workflow_name : String) (head_sha : String)
      (installation_id : String) (conclusion : String)
  deriving DecidableEq

/-- Whether a `WAction` is an invocation of the failure-processing
pipeline. -/
def isProcessorCall : WAction → Bool
  | .processorCall .. => true
  | _ => false

/-- The computation `str(event_data.get('installation', {}).get('id', ''))`
of `handle_workflow_run_event` (`webhooks.py` line 116): a present integer
id renders in decimal, a missing one renders the `''` default. -/
def installationIdStr (e : EventData) : String :=
  match (e.installation.getD default).id with
  | some n => toString n
  | none => ""

/-- Python truthiness of the optional `workflow_run.get('id')` inside
`all([...])`: `None` and `0` are falsy. -/
def runIdTruthy : Option Int → Bool
  | some n => n != 0
  | none => false

/-- `handle_workflow_run_event` (`webhooks.py` lines 79–156), returning the
trace of observable actions.  The gates are mirrored in source order:
`action != 'completed'` returns, a conclusion outside
`['failure', 'cancelled']` returns, and missing required fields (Python
`all([...])` truthiness) return.  Otherwise the processor is awaited once;
its outcome `procOutcome` — including any exception, modelled as `.error` —
is swallowed by the final `except Exception` branch (lines 153–156), which
only logs and returns normally. -/
def handleWorkflowRunEvent (e : EventData)
    (procOutcome : Except String Unit) : List WAction :=
  let workflow_run := e.workflow_run.getD default
  let repository := e.repository.getD default
  let action := e.action.getD ""
  -- Step 2: Check if workflow is completed
  if action ≠ "completed" then []
  else
    -- Step 3: Check if workflow failed
    let conclusion := workflow_run.conclusion.getD ""
    if conclusion ≠ "failure" ∧ conclusion ≠ "cancelled" then []
    else
      -- Step 4: Extract workflow information
      let workflow_run_id := workflow_run.id
      let workflow_name := workflow_run.name.getD "Unknown"
      let head_sha := workflow_run.head_sha.getD ""
      let repository_name := repository.full_name.getD ""
      let installation_id := installationIdStr e
      -- `if not all([workflow_run_id, head_sha, repository_name, installation_id])`
      if !(runIdTruthy workflow_run_id && head_sha != "" && repository_name != ""
          && installation_id != "") then []
      else
        let runId := workflow_run_id.getD 0
        -- Step 6: await processor.process_workflow_failure(...);
        -- any exception is caught, logged, and not re-raised.
        match procOutcome with
        | .ok _ =>
          [WAction.processorCall runId repository_name workflow_name
            head_sha installation_id conclusion]
        | .error _e =>
          [WAction.processorCall runId repository_name workflow_name
            head_sha installation_id conclusion]

/-- The HTTP response of the `POST /github` endpoint: a `JSONResponse`
(status 200) whose body is the content dict, or an `HTTPException` with a
status code and detail string. -/
inductive WebhookResponse where
  | json (status : Nat) (body : List (String × String))
  | httpError (status : Nat) (detail : String)
  deriving DecidableEq

/-- `github_webhook` (`webhooks.py` lines 35–77), returning the response
and the trace of observable actions.  `parsed` is the outcome of
`json.loads(payload)` (`none` models a `JSONDecodeError`, answered with
400); an invalid signature raises `HTTPException(401, 'Invalid signature')`
before any parsing; a non-`workflow_run` event type is skipped; otherwise
`handle_workflow_run_event` runs and the endpoint answers
`{"status": "processed", "event_type": event_type}` with status 200. -/
def githubWebhook (secret : String)
    (hmacSha256Hex : String → String → String)
    (payload signatureHeader eventType : String)
    (parsed : Option EventData) (procOutcome : Except String Unit) :
    WebhookResponse × List WAction :=
  if ¬ verifyWebhookSignature secret hmacSha256Hex payload signatureHeader then
    (.httpError 401 "Invalid signature", [WAction.verifySignature])
  else
    match parsed with
    | none =>
      (.httpError 400 "Invalid JSON", [WAction.verifySignature, WAction.parseJson])
    | some event_data =>
      if eventType = "workflow_run" then
        let sub := handleWorkflowRunEvent event_data procOutcome
        (.json 200 [("status", "processed"), ("event_type", eventType)],
          [WAction.verifySignature, WAction.parseJson] ++ sub)
      else
        (.json 200 [("status", "processed"), ("event_type", eventType)],
          [WAction.verifySignature, WAction.parseJson])

/-! ## Concrete data for witnesses and counterexamples -/

/-- A stored error-signature row used to exercise the update branch of
`store_error_signature`. -/
def sampleRow : ErrorSignatureRow :=
  { id := 1
    signature_hash := "h1"
    error_pattern := "npm install failed"
    error_type := "dependency"
    confidence_score := 3/5
    remediation_steps := ["Pin the package version"]
    success_rate := 0
    occurrence_count := 2 }

/-- A parsed LLM analysis with high confidence and no auto-fix. -/
def highConfidenceData : AnalysisData :=
  { failure_reason := some "Missing dependency"
    confidence_score := some (9/10)
    remediation_steps := some ["Pin the package version"]
    error_type := some "dependency"
    suggested_labels := some ["ci"]
    can_auto_fix := some false
    auto_fix_patch := none }

/-- A pipeline environment whose fetched logs are non-empty and whose
analysis has high confidence. -/
def highConfidenceEnv : ProcEnv :=
  { fetchResult := .ok ("##[error] npm install failed", ["build-log"])
    historyError := none
    llm := .ok (some highConfidenceData)
    db := []
    nextId := 1
    checkRunResp := .ok 11
    issueResp := .ok (some 3) }

/-- A parsed LLM analysis marked auto-fixable with a non-empty patch. -/
def autoFixData : AnalysisData :=
  { failure_reason := some "Bad workflow yaml"
    confidence_score := some (9/10)
    remediation_steps := some ["Fix the yaml"]
    error_type := some "configuration"
    suggested_labels := some ["ci"]
    can_auto_fix := some true
    auto_fix_patch := some "name: ci fixed" }

/-- A pipeline environment with non-empty logs and an auto-fixable,
high-confidence analysis: the strongest possible trigger for the
patch-proposal step. -/
def autoFixEnv : ProcEnv :=
  { fetchResult := .ok ("yaml parse error in workflow", [])
    historyError := none
    llm := .ok (some autoFixData)
    db := []
    nextId := 1
    checkRunResp := .ok 12
    issueResp := .ok (some 4) }

/-- A webhook payload whose action is not `completed`. -/
def requestedEvent : EventData :=
  { action := some "requested"
    workflow_run := none
    repository := none
    installation := none }

/-- A fully-populated gated webhook payload: completed, failed, with all
required identifying fields present. -/
def gatedEvent : EventData :=
  { action := some "completed"
    workflow_run := some
      { id := some 5
        name := some "CI"
        head_sha := some "abc123"
        conclusion := some "failure" }
    repository := some { full_name := some "octo/hello" }
    installation := some { id := some 7 } }

/-! ## Theorems -/

/-- C6: `generate_error_signature` returns the SHA-256 hex digest (the
external `hashlib` primitive, the parameter `sha256hex`) of the first 1000
characters of the logs concatenated with the failure-reason string; being a
pure function of that concatenation it is deterministic, and two log texts
agreeing on their first 1000 characters yield the same signature for the
same failure reason. -/
theorem generate_error_signature_spec (sha256hex : String → String)
    (logs error_pattern : String) :
    generateErrorSignature sha256hex logs error_pattern
        = sha256hex (logs.take 1000 ++ error_pattern) ∧
    ∀ logs₂ : String, logs.take 1000 = logs₂.take 1000 →
      generateErrorSignature sha256hex logs error_pattern
        = generateErrorSignature sha256hex logs₂ error_pattern := by
  constructor
  · rfl
  · intro logs₂ h
    simp only [generateErrorSignature, generateErrorSignatureHash, h]

/-- Concrete instance of `generate_error_signature_spec`: two short log
texts (each shorter than 1000 characters, hence equal to their own
1000-character prefixes) with the same content produce the same
signature. -/
theorem generate_error_signature_spec_witness :
    generateErrorSignature (fun s => s) "npm ERR! code E404" "missing package"
      = generateErrorSignature (fun s => s) "npm ERR! code E404" "missing package" :=
  (generate_error_signature_spec (fun s => s) "npm ERR! code E404" "missing package").2
    "npm ERR! code E404" rfl

/-- C10: on every execution path — LLM API failure, unparsable response,
parsed value (clamped with min/max), or missing value (default 0.5) — the
`AnalysisResult` handed to the pipeline by `_analyze_with_claude` has a
confidence score in the closed interval [0, 1]. -/
theorem confidence_score_in_range (historyError : Option String)
    (llm : LLMOutcome) :
    0 ≤ (analyzeWithClaude historyError llm).confidence_score ∧
    (analyzeWithClaude historyError llm).confidence_score ≤ 1 := by
  cases historyError with
  | some e =>
    constructor <;> norm_num [analyzeWithClaude]
  | none =>
    cases llm with
    | error e =>
      constructor <;> norm_num [analyzeWithClaude, analyzeWorkflowFailure]
    | ok parsed =>
      refine ⟨?_, ?_⟩
      · simp only [analyzeWithClaude, analyzeWorkflowFailure]
        exact le_min (le_max_right _ _) (by norm_num)
      · simp only [analyzeWithClaude, analyzeWorkflowFailure]
        exact min_le_right _ _

/-- C8: `store_error_signature` on a hash already present increments that
row's occurrence count by exactly 1 and sets its confidence score to the
maximum of the stored and supplied scores (hence the stored confidence
never decreases); on a new hash it creates a row with occurrence count 1. -/
theorem store_error_signature_spec (db : List ErrorSignatureRow)
    (nextId : Int) (hash pattern etype : String) (conf : ℚ)
    (rem : List String) (succ : ℚ) :
    (∀ r, db.find? (fun s => s.signature_hash == hash) = some r →
      (storeErrorSignature db nextId hash pattern etype conf rem succ).1.occurrence_count
          = r.occurrence_count + 1 ∧
      (storeErrorSignature db nextId hash pattern etype conf rem succ).1.confidence_score
          = max r.confidence_score conf ∧
      r.confidence_score
          ≤ (storeErrorSignature db nextId hash pattern etype conf rem succ).1.confidence_score) ∧
    (db.find? (fun s => s.signature_hash == hash) = none →
      (storeErrorSignature db nextId hash pattern etype conf rem succ).1.occurrence_count = 1) := by
  constructor
  · intro r hr
    simp [storeErrorSignature, hr]
  · intro h
    simp only [storeErrorSignature, h]

/-- Concrete instance of `store_error_signature_spec`: updating the stored
row `sampleRow` (count 2, confidence 3/5) with a new score 4/5 yields count
3 and confidence max(3/5, 4/5), and storing under a fresh hash yields
count 1. -/
theorem store_error_signature_spec_witness :
    ((storeErrorSignature [sampleRow] 2 "h1" "p" "dependency" (4/5) ["t"] 0).1.occurrence_count
        = sampleRow.occurrence_count + 1 ∧
      (storeErrorSignature [sampleRow] 2 "h1" "p" "dependency" (4/5) ["t"] 0).1.confidence_score
        = max sampleRow.confidence_score (4/5) ∧
      sampleRow.confidence_score
        ≤ (storeErrorSignature [sampleRow] 2 "h1" "p" "dependency" (4/5) ["t"] 0).1.confidence_score) ∧
    (storeErrorSignature [] 2 "h9" "p" "timeout" (1/2) [] 0).1.occurrence_count = 1 :=
  ⟨(store_error_signature_spec [sampleRow] 2 "h1" "p" "dependency" (4/5) ["t"] 0).1
      sampleRow rfl,
   (store_error_signature_spec [] 2 "h9" "p" "timeout" (1/2) [] 0).2 rfl⟩

theorem handleWorkflowRunEvent_eq_nil_of_action (e : EventData)
    (proc : Except String Unit) (h : e.action.getD "" ≠ "completed") :
    handleWorkflowRunEvent e proc = [] := by
  unfold handleWorkflowRunEvent
  simp [h]

theorem handleWorkflowRunEvent_eq_nil_of_conclusion (e : EventData)
    (proc : Except String Unit)
    (h1 : (e.workflow_run.getD default).conclusion.getD "" ≠ "failure")
    (h2 : (e.workflow_run.getD default).conclusion.getD "" ≠ "cancelled") :
    handleWorkflowRunEvent e proc = [] := by
  by_cases hA : e.action.getD "" = "completed"
  · unfold handleWorkflowRunEvent
    cases proc <;> simp [hA, h1, h2]
  · exact handleWorkflowRunEvent_eq_nil_of_action e proc hA

theorem handleWorkflowRunEvent_trace_cases (e : EventData)
    (proc : Except String Unit) :
    handleWorkflowRunEvent e proc = [] ∨
    (handleWorkflowRunEvent e proc).countP isProcessorCall = 1 := by
  by_cases hA : e.action.getD "" = "completed"
  case neg => exact Or.inl (handleWorkflowRunEvent_eq_nil_of_action e proc hA)
  by_cases hC : ((e.workflow_run.getD default).conclusion.getD "" ≠ "failure" ∧
      (e.workflow_run.getD default).conclusion.getD "" ≠ "cancelled")
  case pos =>
    exact Or.inl (handleWorkflowRunEvent_eq_nil_of_conclusion e proc hC.1 hC.2)
  by_cases hT : (!(runIdTruthy (e.workflow_run.getD default).id
      && (e.workflow_run.getD default).head_sha.getD "" != ""
      && (e.repository.getD default).full_name.getD "" != ""
      && installationIdStr e != "")) = true
  · refine Or.inl ?_
    unfold handleWorkflowRunEvent
    cases proc <;> simp [hA, hC, hT]
  · refine Or.inr ?_
    unfold handleWorkflowRunEvent
    cases proc <;> simp [hA, hC, hT, List.countP_cons, isProcessorCall]

/-- C1: `handle_workflow_run_event` invokes the failure-processing pipeline
only when the event action is `completed` and the run conclusion is
`failure` or `cancelled`; for any other action or conclusion its trace is
empty — it returns without calling the processor, contacting GitHub, or
writing to the database. -/
theorem handle_workflow_run_event_gating (e : EventData)
    (proc : Except String Unit) :
    ((handleWorkflowRunEvent e proc).countP isProcessorCall ≠ 0 →
      e.action.getD "" = "completed" ∧
      ((e.workflow_run.getD default).conclusion.getD "" = "failure" ∨
       (e.workflow_run.getD default).conclusion.getD "" = "cancelled")) ∧
    ((e.action.getD "" ≠ "completed" ∨
      ((e.workflow_run.getD default).conclusion.getD "" ≠ "failure" ∧
       (e.workflow_run.getD default).conclusion.getD "" ≠ "cancelled")) →
      handleWorkflowRunEvent e proc = []) := by
  constructor
  · intro h
    by_cases hA : e.action.getD "" = "completed"
    · refine ⟨hA, ?_⟩
      by_cases hF : (e.workflow_run.getD default).conclusion.getD "" = "failure"
      · exact Or.inl hF
      · by_cases hC : (e.workflow_run.getD default).conclusion.getD "" = "cancelled"
        · exact Or.inr hC
        · rw [handleWorkflowRunEvent_eq_nil_of_conclusion e proc hF hC] at h
          simp at h
    · rw [handleWorkflowRunEvent_eq_nil_of_action e proc hA] at h
      simp at h
  · intro h
    rcases h with h | ⟨h1, h2⟩
    · exact handleWorkflowRunEvent_eq_nil_of_action e proc h
    · exact handleWorkflowRunEvent_eq_nil_of_conclusion e proc h1 h2

/-- Concrete instance of `handle_workflow_run_event_gating`: an event whose
action is `requested` produces no processor call, no GitHub contact and no
database write. -/
theorem handle_workflow_run_event_gating_witness :
    handleWorkflowRunEvent requestedEvent (.ok ()) = [] :=
  (handle_workflow_run_event_gating requestedEvent (.ok ())).2
    (Or.inl (by decide))

theorem verifyWebhookSignature_eq_true_iff (secret : String)
    (hmacSha256Hex : String → String → String) (payload sig : String) :
    verifyWebhookSignature secret hmacSha256Hex payload sig = true ↔
      sig = "sha256=" ++ hmacSha256Hex secret payload := by
  unfold verifyWebhookSignature
  split
  · rename_i hpre
    simp only [Bool.false_eq_true, false_iff]
    intro hEq
    subst hEq
    simp [String.data_append, List.isPrefixOf_iff_prefix, List.prefix_append] at hpre
  · simp

/-- C9: the `POST /github` endpoint answers 401 with detail
`Invalid signature` — performing no event parsing and no processing —
exactly when the `X-Hub-Signature-256` header differs from `'sha256='`
followed by the hex HMAC-SHA256 of the raw body under the configured
secret; in particular any header value that does not start with
`'sha256='` (including the empty string an absent header defaults to) is
rejected. -/
theorem webhook_rejects_invalid_signature (secret : String)
    (hmacSha256Hex : String → String → String)
    (payload sig eventType : String) (parsed : Option EventData)
    (proc : Except String Unit) :
    (githubWebhook secret hmacSha256Hex payload sig eventType parsed proc
        = (.httpError 401 "Invalid signature", [WAction.verifySignature])
      ↔ sig ≠ "sha256=" ++ hmacSha256Hex secret payload) ∧
    ("sha256=".data.isPrefixOf sig.data = false →
      githubWebhook secret hmacSha256Hex payload sig eventType parsed proc
        = (.httpError 401 "Invalid signature", [WAction.verifySignature])) := by
  have hverify := verifyWebhookSignature_eq_true_iff secret hmacSha256Hex payload sig
  constructor
  · constructor
    · intro hRes hSig
      have hv : verifyWebhookSignature secret hmacSha256Hex payload sig = true :=
        hverify.mpr hSig
      unfold githubWebhook at hRes
      rw [if_neg (by simp [hv])] at hRes
      cases parsed with
      | none => simp at hRes
      | some ev =>
        by_cases hev : eventType = "workflow_run" <;> simp [hev] at hRes
    · intro hNe
      have hv : verifyWebhookSignature secret hmacSha256Hex payload sig = false := by
        cases hb : verifyWebhookSignature secret hmacSha256Hex payload sig with
        | false => rfl
        | true => exact absurd (hverify.mp hb) hNe
      unfold githubWebhook
      rw [if_pos (by simp [hv])]
  · intro hpre
    have hv : verifyWebhookSignature secret hmacSha256Hex payload sig = false := by
      unfold verifyWebhookSignature
      simp [hpre]
    unfold githubWebhook
    rw [if_pos (by simp [hv])]

/-- Concrete instance of `webhook_rejects_invalid_signature`: a header that
does not start with `sha256=` is answered 401 before any parsing. -/
theorem webhook_rejects_invalid_signature_witness :
    githubWebhook "secret" (fun _ _ => "d") "payload" "bogus" "workflow_run"
        (some gatedEvent) (.ok ())
      = (.httpError 401 "Invalid signature", [WAction.verifySignature]) :=
  (webhook_rejects_invalid_signature "secret" (fun _ _ => "d") "payload"
      "bogus" "workflow_run" (some gatedEvent) (.ok ())).2 (by decide)

/-- C5: when a gated `workflow_run` event reaches the pipeline and the
pipeline raises, the handler swallows the exception: the endpoint still
answers 200 with body status `processed`, nothing is re-raised to the
webhook caller, and the processor was invoked exactly once — no pipeline
step is retried. -/
theorem webhook_swallows_pipeline_error (secret : String)
    (hmacSha256Hex : String → String → String) (payload sig : String)
    (e : EventData) (err : String)
    (hSig : verifyWebhookSignature secret hmacSha256Hex payload sig = true)
    (hGated : handleWorkflowRunEvent e (.error err) ≠ []) :
    (githubWebhook secret hmacSha256Hex payload sig "workflow_run" (some e)
        (.error err)).1
      = .json 200 [("status", "processed"), ("event_type", "workflow_run")] ∧
    (githubWebhook secret hmacSha256Hex payload sig "workflow_run" (some e)
        (.error err)).2.countP isProcessorCall = 1 := by
  have hCount : (handleWorkflowRunEvent e (.error err)).countP isProcessorCall = 1 := by
    rcases handleWorkflowRunEvent_trace_cases e (.error err) with h | h
    · exact absurd h hGated
    · exact h
  constructor
  · unfold githubWebhook
    rw [if_neg (by simp [hSig])]
    simp
  · unfold githubWebhook
    rw [if_neg (by simp [hSig])]
    simp [List.countP_append, List.countP_cons, isProcessorCall, hCount]

/-- Concrete instance of `webhook_swallows_pipeline_error`: a valid
signature and a fully gated failed-run event, with the pipeline raising
`boom`, still yield a 200 `processed` response and exactly one processor
invocation. -/
theorem webhook_swallows_pipeline_error_witness :
    (githubWebhook "secret" (fun _ _ => "d") "payload" "sha256=d"
        "workflow_run" (some gatedEvent) (.error "boom")).1
      = .json 200 [("status", "processed"), ("event_type", "workflow_run")] ∧
    (githubWebhook "secret" (fun _ _ => "d") "payload" "sha256=d"
        "workflow_run" (some gatedEvent) (.error "boom")).2.countP
        isProcessorCall = 1 :=
  webhook_swallows_pipeline_error "secret" (fun _ _ => "d") "payload"
    "sha256=d" gatedEvent "boom" (by decide) (by decide)

theorem processWorkflowFailure_eq (sha256hex : String → String)
    (env : ProcEnv) :
    processWorkflowFailure sha256hex env =
      if (fetchWorkflowData env).1 == "" then [Step.fetchData]
      else
        [Step.fetchData, Step.analyze, Step.storeSignature, Step.createCheckRun]
          ++ (if (7 : ℚ)/10 < (analyzeWithClaude env.historyError env.llm).confidence_score
              then [Step.createIssue] else [])
          ++ [Step.storeAnalysis
              (if (7 : ℚ)/10 < (analyzeWithClaude env.historyError env.llm).confidence_score
               then createOrUpdateIssue env else none)]
          ++ (if ((analyzeWithClaude env.historyError env.llm).can_auto_fix
                && optStrTruthy (analyzeWithClaude env.historyError env.llm).auto_fix_patch) = true
              then [Step.proposePatch] else []) := by
  by_cases h1 : ((fetchWorkflowData env).1 == "") = true
  · simp [processWorkflowFailure, h1, Id.run]
  · by_cases h2 : (7 : ℚ)/10 < (analyzeWithClaude env.historyError env.llm).confidence_score
    · by_cases h3 : ((analyzeWithClaude env.historyError env.llm).can_auto_fix
          && optStrTruthy (analyzeWithClaude env.historyError env.llm).auto_fix_patch) = true
      · simp [processWorkflowFailure, h1, h2, h3, Id.run]
      · simp [processWorkflowFailure, h1, h2, h3, Id.run]
    · by_cases h3 : ((analyzeWithClaude env.historyError env.llm).can_auto_fix
          && optStrTruthy (analyzeWithClaude env.historyError env.llm).auto_fix_patch) = true
      · simp [processWorkflowFailure, h1, h2, h3, Id.run]
      · simp [processWorkflowFailure, h1, h2, h3, Id.run]

/-- C3: for every gated failed run the pipeline trace is one fixed linear
sequence — fetch logs and artifacts, analyze, store the error signature,
create a check run, conditionally create an issue, store the analysis row,
conditionally propose a patch — each step at most once and in this order;
when the fetched logs are empty the trace stops right after the fetch. -/
theorem pipeline_linear_sequence (sha256hex : String → String)
    (env : ProcEnv) :
    processWorkflowFailure sha256hex env =
      if (fetchWorkflowData env).1 == "" then [Step.fetchData]
      else
        [Step.fetchData, Step.analyze, Step.storeSignature, Step.createCheckRun]
          ++ (if (7 : ℚ)/10 < (analyzeWithClaude env.historyError env.llm).confidence_score
              then [Step.createIssue] else [])
          ++ [Step.storeAnalysis
              (if (7 : ℚ)/10 < (analyzeWithClaude env.historyError env.llm).confidence_score
               then createOrUpdateIssue env else none)]
          ++ (if ((analyzeWithClaude env.historyError env.llm).can_auto_fix
                && optStrTruthy (analyzeWithClaude env.historyError env.llm).auto_fix_patch) = true
              then [Step.proposePatch] else []) :=
  processWorkflowFailure_eq sha256hex env

/-- C2: when the pipeline proceeds past the fetch, the GitHub-issue step
runs exactly when the analysis confidence is strictly greater than 0.7; at
or below 0.7 it is skipped, the analysis row is stored with `issue_id =
None`, and every other pipeline step still runs (the patch step still runs
whenever its own auto-fix gate holds). -/
theorem issue_creation_confidence_gate (sha256hex : String → String)
    (env : ProcEnv) (hlogs : (fetchWorkflowData env).1 ≠ "") :
    (Step.createIssue ∈ processWorkflowFailure sha256hex env ↔
      (7 : ℚ)/10 < (analyzeWithClaude env.historyError env.llm).confidence_score) ∧
    ((analyzeWithClaude env.historyError env.llm).confidence_score ≤ 7/10 →
      Step.storeAnalysis none ∈ processWorkflowFailure sha256hex env ∧
      Step.fetchData ∈ processWorkflowFailure sha256hex env ∧
      Step.analyze ∈ processWorkflowFailure sha256hex env ∧
      Step.storeSignature ∈ processWorkflowFailure sha256hex env ∧
      Step.createCheckRun ∈ processWorkflowFailure sha256hex env ∧
      (((analyzeWithClaude env.historyError env.llm).can_auto_fix
          && optStrTruthy (analyzeWithClaude env.historyError env.llm).auto_fix_patch) = true →
        Step.proposePatch ∈ processWorkflowFailure sha256hex env)) := by
  have h1 : ¬ (((fetchWorkflowData env).1 == "") = true) := by simp [hlogs]
  rw [processWorkflowFailure_eq sha256hex env, if_neg h1]
  constructor
  · by_cases h2 : (7 : ℚ)/10 < (analyzeWithClaude env.historyError env.llm).confidence_score <;>
      simp [h2]
  · intro hle
    have h2 : ¬ (7 : ℚ)/10 < (analyzeWithClaude env.historyError env.llm).confidence_score :=
      not_lt.mpr hle
    by_cases h3 : ((analyzeWithClaude env.historyError env.llm).can_auto_fix
        && optStrTruthy (analyzeWithClaude env.historyError env.llm).auto_fix_patch) = true <;>
      simp [h2, h3]

/-- Concrete instance of `issue_creation_confidence_gate`: an analysis with
confidence 9/10 makes the pipeline execute the issue-creation step. -/
theorem issue_creation_confidence_gate_witness :
    Step.createIssue ∈ processWorkflowFailure (fun s => s) highConfidenceEnv :=
  ((issue_creation_confidence_gate (fun s => s) highConfidenceEnv
      (by decide)).1).mpr
    (by norm_num [analyzeWithClaude, analyzeWorkflowFailure, highConfidenceEnv,
      highConfidenceData, min_def, max_def])

/-- C4 counterexample: with non-empty logs and an analysis whose
`can_auto_fix` is true and whose `auto_fix_patch` is non-empty, the
pipeline does invoke its patch-proposal step, yet no
`GitHubAPI.create_pull_request` call occurs anywhere in the trace — the
claimed pull-request creation does not happen. -/
theorem auto_fix_no_pull_request_counterexample :
    Step.proposePatch ∈ processWorkflowFailure (fun s => s) autoFixEnv ∧
    Step.createPullRequest ∉ processWorkflowFailure (fun s => s) autoFixEnv := by
  rw [processWorkflowFailure_eq]
  norm_num [fetchWorkflowData, autoFixEnv, autoFixData, analyzeWithClaude,
    analyzeWorkflowFailure, optStrTruthy, min_def, max_def]
  simp

/-- C4 (amended): when the analysis has `can_auto_fix` true and a non-empty
`auto_fix_patch` (and the fetched logs are non-empty), the processor invokes
the patch-proposal step, but `_propose_patch` is an unimplemented
placeholder that only logs: it performs no GitHub API call and creates no
pull request. -/
theorem propose_patch_is_placeholder (sha256hex : String → String)
    (env : ProcEnv) (hlogs : (fetchWorkflowData env).1 ≠ "")
    (hfix : ((analyzeWithClaude env.historyError env.llm).can_auto_fix
        && optStrTruthy (analyzeWithClaude env.historyError env.llm).auto_fix_patch) = true) :
    Step.proposePatch ∈ processWorkflowFailure sha256hex env ∧
    Step.createPullRequest ∉ processWorkflowFailure sha256hex env := by
  have h1 : ¬ (((fetchWorkflowData env).1 == "") = true) := by simp [hlogs]
  rw [processWorkflowFailure_eq sha256hex env, if_neg h1]
  by_cases h2 : (7 : ℚ)/10 < (analyzeWithClaude env.historyError env.llm).confidence_score <;>
    simp [h2, hfix]

/-- Concrete instance of `propose_patch_is_placeholder` on `autoFixEnv`. -/
theorem propose_patch_is_placeholder_witness :
    Step.proposePatch ∈ processWorkflowFailure (fun s => s) autoFixEnv ∧
    Step.createPullRequest ∉ processWorkflowFailure (fun s => s) autoFixEnv :=
  propose_patch_is_placeholder (fun s => s) autoFixEnv (by decide) (by decide)

/-- C7 counterexample: a `make_request` call with a cold installation-token
cache issues two HTTP requests (the token POST plus the endpoint request),
not exactly one. -/
theorem make_request_not_single_request_counterexample :
    (match makeRequest [] "POST" "/repos/octo/hello/issues" "42" 0 (201, "tok")
        ⟨201, "created"⟩ with
      | .ok r => r.2.2.length
      | .error _ => 0) = 2 ∧
    ¬ (match makeRequest [] "POST" "/repos/octo/hello/issues" "42" 0 (201, "tok")
        ⟨201, "created"⟩ with
      | .ok r => r.2.2.length
      | .error _ => 0) = 1 := by
  decide

/-- C7 (amended): `make_request` issues exactly one HTTP request to its
target endpoint per call and returns that response unchanged without
retrying on error statuses, but it first obtains an installation token,
which is cached: within the validity window the cached token is reused
with zero token requests, and on a cache miss one additional token-fetch
request is issued — so a `make_request` call performs one or two HTTP
requests in total, never a repeat of the endpoint request. -/
theorem make_request_single_endpoint_request (cache : List TokenCacheEntry)
    (method endpoint installation_id : String) (now : ℚ) (st : Nat)
    (tok : String) (resp : HttpResponse)
    (h : tokenCacheHit cache installation_id now = true ∨ st = 201) :
    ∃ cacheAfter,
      makeRequest cache method endpoint installation_id now (st, tok) resp =
        .ok (resp, cacheAfter,
          (if tokenCacheHit cache installation_id now then []
           else [HttpReq.tokenPost installation_id])
            ++ [HttpReq.endpointCall method ("https://api.github.com" ++ endpoint)]) := by
  by_cases hHit : tokenCacheHit cache installation_id now = true
  · cases hFind : cache.find? (fun e => e.installation_id == installation_id) with
    | none =>
      exfalso
      unfold tokenCacheHit at hHit
      rw [hFind] at hHit
      simp at hHit
    | some entry =>
      have hg : getInstallationToken cache installation_id now (st, tok)
          = .ok (entry.token, cache, []) := by
        unfold getInstallationToken
        rw [if_pos hHit, hFind]
      refine ⟨cache, ?_⟩
      unfold makeRequest
      rw [hg, if_pos hHit]
  · rcases h with h | hst
    · exact absurd h hHit
    · subst hst
      unfold makeRequest getInstallationToken
      simp [hHit]

/-- Concrete instance of `make_request_single_endpoint_request` on a cold
cache with a successful token fetch. -/
theorem make_request_single_endpoint_request_witness :
    ∃ cacheAfter,
      makeRequest [] "GET" "/repos/octo/hello/actions/runs/5/logs" "42" 0
          (201, "tok") ⟨200, "logs"⟩ =
        .ok (⟨200, "logs"⟩, cacheAfter,
          (if tokenCacheHit [] "42" 0 then [] else [HttpReq.tokenPost "42"])
            ++ [HttpReq.endpointCall "GET"
                ("https://api.github.com" ++ "/repos/octo/hello/actions/runs/5/logs")]) :=
  make_request_single_endpoint_request [] "GET"
    "/repos/octo/hello/actions/runs/5/logs" "42" 0 201 "tok" ⟨200, "logs"⟩
    (Or.inr rfl)

end CISage
